import Mathlib

/-!
Verification of the secops-mcp invocation adapters.

Shallow embedding of the tool-adapter layer (src/tools/httpx.py, nmap.py,
subfinder.py, hashcat.py, sqlmap.py, xsstrike.py).  Each Python adapter is a
function that validates its inputs, builds an argument vector, runs one
external process under `subprocess.run`, and converts the outcome (normal
exit, `CalledProcessError`, `TimeoutExpired`, `FileNotFoundError`, or any
other exception) into one JSON result envelope via `json.dumps`.

Modelling choices:
- A JSON value is modelled by the inductive `Json`; `json.dumps` followed by
  decoding is treated as the identity on that value, so adapters return the
  `Json` envelope directly.
- The external process is an oracle `exec : ProcessSpec → ExecOutcome`
  supplied as a parameter: `ProcessSpec` records the argument vector, the
  optional stdin payload and the optional `timeout=` argument given to
  `subprocess.run` (a `none` timeout means `subprocess.run` is called without
  a time bound and can block forever; `subprocess.run` only raises
  `TimeoutExpired` when a timeout was set).
- `json.loads` applied to a single output line is an oracle
  `jsonLoads : String → Option Json` (`none` models `json.JSONDecodeError`).
- Python string primitives (`str.strip`, `str.split`, `str.lower`,
  `str.join`, substring membership, truthiness of `or`) are reimplemented
  structurally below.
-/

namespace SecOps

/-- JSON values as assembled by the adapters before `json.dumps`. -/
inductive Json where
  | null
  | bool (b : Bool)
  | num (n : Int)
  | str (s : String)
  | arr (items : List Json)
  | obj (fields : List (String × Json))

/-- Field lookup in a decoded JSON object (first binding wins, as in a
Python dict built from distinct literal keys). -/
def Json.getField : Json → String → Option Json
  | .obj fields, key => List.lookup key fields
  | _, _ => none

/-- Python `None`-or-string values (e.g. `e.stderr`) embedded into JSON. -/
def Json.ofOptStr : Option String → Json
  | none => .null
  | some s => .str s

/-- Argument to one `subprocess.run` call: argument vector, optional stdin
payload (`input=`), optional time bound in seconds (`timeout=`). -/
structure ProcessSpec where
  cmd : List String
  stdinData : Option String
  timeout : Option Nat

/-- Outcome of one `subprocess.run(..., check=True)` call, as observed by the
adapter's `try`/`except` clauses.  `msg` fields carry the Python `str(e)`
text of the corresponding exception. -/
inductive ExecOutcome where
  | ok (stdout stderr : String)
  | calledProcessError (stderr stdout : Option String) (msg : String)
  | timeoutExpired (msg : String)
  | fileNotFound (msg : String)
  | otherException (msg : String)

/-- Whitespace characters stripped by Python `str.strip()`. -/
def isPySpace (c : Char) : Bool :=
  c = ' ' || c = '\t' || c = '\n' || c = '\r' || c = '\x0b' || c = '\x0c'

/-- Python `str.strip()` on a character list. -/
def stripChars (cs : List Char) : List Char :=
  ((cs.dropWhile isPySpace).reverse.dropWhile isPySpace).reverse

/-- Python `str.strip()`. -/
def pyStrip (s : String) : String := String.mk (stripChars s.data)

/-- Python `str.lower()` (ASCII case folding, which is all the adapters use). -/
def pyLower (s : String) : String := String.mk (s.data.map Char.toLower)

/-- Python `s.split(sep)` for a one-character separator, on character lists:
every separator occurrence produces a segment boundary, and empty segments
are kept. -/
def splitCharOn (sep : Char) : List Char → List (List Char)
  | [] => [[]]
  | c :: cs =>
    let rest := splitCharOn sep cs
    if c = sep then [] :: rest
    else
      match rest with
      | [] => [[c]]
      | seg :: segs => (c :: seg) :: segs

/-- Python `s.split('\n')`. -/
def pyLines (s : String) : List String := (splitCharOn '\n' s.data).map String.mk

/-- Python `sep.join(parts)`. -/
def joinWith (sep : String) : List String → String
  | [] => ""
  | [part] => part
  | part :: parts => part ++ sep ++ joinWith sep parts

/-- Boolean list-prefix test used by the substring search below. -/
def leadsWith : List Char → List Char → Bool
  | [], _ => true
  | _ :: _, [] => false
  | a :: as, b :: bs => a == b && leadsWith as bs

/-- Substring occurrence on character lists. -/
def hasSubList (needle : List Char) : List Char → Bool
  | [] => leadsWith needle []
  | c :: cs => leadsWith needle (c :: cs) || hasSubList needle cs

/-- Python `needle in hay` on strings. -/
def containsSub (hay needle : String) : Bool := hasSubList needle.data hay.data

/-- Python `a or b` where `a` is an optional string: `None` and the empty
string are falsy (models `e.stderr or str(e)`). -/
def pyOr (a : Option String) (b : String) : String :=
  match a with
  | none => b
  | some s => if s = "" then b else s

/-- Shared JSON-lines parsing loop (httpx.py lines 91-100, subfinder.py lines
33-41, which are textually identical logic): strip the whole stdout, split it
on newlines, skip lines that are blank after stripping, parse the remaining
lines independently and silently drop lines that fail to parse, keeping
successfully parsed records in order. -/
def parseJsonLines (jsonLoads : String → Option Json) (stdout : String) : List Json :=
  (pyLines (pyStrip stdout)).filterMap fun line =>
    if pyStrip line = "" then none else jsonLoads line

/-! ### httpx adapter (src/tools/httpx.py, `run_httpx`) -/

/-- Envelope returned by `run_httpx` when no targets are provided
(httpx.py lines 31-35), before any command is built or run. -/
def httpxNoTargetsEnvelope : Json :=
  .obj [("success", .bool false),
        ("error", .str "No targets provided. Please provide at least one URL or IP address.")]

/-- Time bound passed to `subprocess.run` by `run_httpx`
(httpx.py line 71): `max(20, (15 * len(targets)) + 20)`. -/
def httpxTimeoutSeconds (targetCount : Nat) : Nat :=
  max 20 (15 * targetCount + 20)

/-- Leading part of the httpx argument vector (httpx.py lines 42-54): base
flags, then the `-sc` status-code filter when a non-empty list was supplied
(Python truthiness: `None` and the empty list are both skipped). -/
def httpxBaseCmd (status_codes : Option (List Int)) : List String :=
  let base := ["httpx", "-json", "-silent", "-timeout", "10"]
  match status_codes with
  | none => base
  | some scs =>
    if scs = [] then base
    else base ++ ["-sc", joinWith "," (scs.map toString)]

/-- Validation and command construction of `run_httpx` (httpx.py lines
31-71): an empty target list is rejected with the no-targets envelope before
any process is attempted; one target uses the inline `-u` flag with no stdin
payload; two or more targets use `-l -` with the targets newline-joined on
stdin.  The time bound is always `httpxTimeoutSeconds` of the target count. -/
def httpxPlan (targets : List String) (status_codes : Option (List Int)) :
    Except Json ProcessSpec :=
  if targets = [] then .error httpxNoTargetsEnvelope
  else
    let cmd0 := httpxBaseCmd status_codes
    let bound := httpxTimeoutSeconds targets.length
    match targets with
    | [t] => .ok ⟨cmd0 ++ ["-u", t], none, some bound⟩
    | ts => .ok ⟨cmd0 ++ ["-l", "-"], some (joinWith "\n" ts), some bound⟩

/-- Success envelope of `run_httpx` (httpx.py lines 102-107). -/
def httpxSuccessEnvelope (targets : List String) (results : List Json) : Json :=
  .obj [("success", .bool true),
        ("targets", .arr (targets.map .str)),
        ("results", .arr results),
        ("count", .num results.length)]

/-- Timeout envelope of `run_httpx` (httpx.py lines 82-89): reports the
configured bound both inside the error text and as `timeout_seconds`, and
echoes the attempted target list. -/
def httpxTimeoutEnvelope (targets : List String) (bound : Nat) (cmd : List String) : Json :=
  .obj [("success", .bool false),
        ("error", .str ("httpx scan timed out after " ++ toString bound
          ++ " seconds. The httpx tool may be hanging or the target is unreachable. Command: "
          ++ joinWith " " cmd)),
        ("targets", .arr (targets.map .str)),
        ("timeout_seconds", .num bound),
        ("suggestion", .str "The site may be slow, or httpx may be waiting for a response. Try checking network connectivity or scanning a different URL.")]

/-- Wrong-binary signatures checked by `run_httpx` (httpx.py lines 114-118).
Note the third signature is the full text pip-install-httpx-cli, not the bare
words pip install. -/
def httpxWrongBinaryPhrases : List String :=
  ["command line client could not run",
   "required dependencies",
   "pip install \x27httpx[cli]\x27"]

/-- Wrong-binary error envelope of `run_httpx` (httpx.py lines 119-124),
naming the expected tool source (projectdiscovery httpx). -/
def httpxWrongBinaryEnvelope (stderr stdout : Option String) : Json :=
  .obj [("success", .bool false),
        ("error", .str "Wrong httpx binary detected. Please install projectdiscovery httpx (not Python httpx). Install with: go install -v github.com/projectdiscovery/httpx/cmd/httpx@latest"),
        ("stderr", Json.ofOptStr stderr),
        ("stdout", Json.ofOptStr stdout)]

/-- Classification of a `CalledProcessError` in `run_httpx` (httpx.py lines
109-140): the combined `(e.stderr or "") + (e.stdout or "") + str(e)` text is
lower-cased and checked, in order, against the wrong-binary signatures, then
against the not-found signatures, falling back to a generic execution-failed
envelope. -/
def httpxClassifyCalledProcessError (stderr stdout : Option String) (msg : String) : Json :=
  let errorLower := pyLower ((stderr.getD "") ++ (stdout.getD "") ++ msg)
  if httpxWrongBinaryPhrases.any (fun phrase => containsSub errorLower phrase) then
    httpxWrongBinaryEnvelope stderr stdout
  else if containsSub errorLower "no such file" || containsSub errorLower "not found" then
    .obj [("success", .bool false),
          ("error", .str "httpx tool not found. Please install projectdiscovery httpx: go install -v github.com/projectdiscovery/httpx/cmd/httpx@latest"),
          ("stderr", Json.ofOptStr stderr),
          ("stdout", Json.ofOptStr stdout)]
  else
    .obj [("success", .bool false),
          ("error", .str ("httpx execution failed: " ++ pyOr stderr msg)),
          ("stderr", Json.ofOptStr stderr),
          ("stdout", Json.ofOptStr stdout)]

/-- Outcome handling of `run_httpx` (httpx.py lines 73-150): the `try`
around `subprocess.run` plus the `except` clauses of the enclosing `try`.
The plan step always sets a time bound, so the `getD 0` default below is
unreachable. -/
def httpxOutcomeEnvelope (targets : List String) (jsonLoads : String → Option Json)
    (spec : ProcessSpec) : ExecOutcome → Json
  | .ok stdout _ => httpxSuccessEnvelope targets (parseJsonLines jsonLoads stdout)
  | .timeoutExpired _ => httpxTimeoutEnvelope targets (spec.timeout.getD 0) spec.cmd
  | .calledProcessError e_stderr e_stdout msg =>
      httpxClassifyCalledProcessError e_stderr e_stdout msg
  | .fileNotFound _ =>
      .obj [("success", .bool false),
            ("error", .str "httpx tool not found. Please install projectdiscovery httpx: go install -v github.com/projectdiscovery/httpx/cmd/httpx@latest")]
  | .otherException msg =>
      .obj [("success", .bool false),
            ("error", .str ("Unexpected error: " ++ msg))]

/-- The whole of `run_httpx` (httpx.py lines 30-150). -/
def run_httpx (targets : List String) (status_codes : Option (List Int))
    (jsonLoads : String → Option Json) (exec : ProcessSpec → ExecOutcome) : Json :=
  match httpxPlan targets status_codes with
  | .error env => env
  | .ok spec => httpxOutcomeEnvelope targets jsonLoads spec (exec spec)

/-- Shared outcome handling of the five adapters whose `try`/`except`
blocks are textually identical (nmap.py, subfinder.py, hashcat.py,
sqlmap.py, xsstrike.py): a normal exit feeds stdout to the adapter's success
envelope; a `CalledProcessError` yields an error envelope echoing `str(e)`
and `e.stderr`; every other exception (`FileNotFoundError`,
`TimeoutExpired`, anything else) is caught by the bare `except Exception`
clause and yields an error envelope with `str(e)` alone. -/
def basicOutcomeEnvelope (successEnv : String → Json) : ExecOutcome → Json
  | .ok stdout _ => successEnv stdout
  | .calledProcessError e_stderr _ msg =>
      .obj [("success", .bool false), ("error", .str msg), ("stderr", Json.ofOptStr e_stderr)]
  | .timeoutExpired msg | .fileNotFound msg | .otherException msg =>
      .obj [("success", .bool false), ("error", .str msg)]

/-! ### nmap adapter (src/tools/nmap.py, `run_nmap`) -/

/-- Argument vector built by `run_nmap` (nmap.py lines 22-28).  Python
truthiness: `None` and the empty string both skip the optional flag. -/
def nmapCmd (target : String) (ports scan_type : Option String) : List String :=
  let cmd := ["nmap", "-oX", "-", target]
  let cmd :=
    match ports with
    | none => cmd
    | some p => if p = "" then cmd else cmd ++ ["-p", p]
  match scan_type with
  | none => cmd
  | some st => if st = "" then cmd else cmd ++ ["-" ++ st]

/-- Process spec of `run_nmap` (nmap.py lines 30-36): `subprocess.run` is
called with no `timeout=` argument, so the invocation has no time bound. -/
def nmapSpec (target : String) (ports scan_type : Option String) : ProcessSpec :=
  ⟨nmapCmd target ports scan_type, none, none⟩

/-- Success envelope of `run_nmap` (nmap.py lines 39-47): the raw XML
stdout is passed through verbatim. -/
def nmapSuccessEnvelope (target : String) (ports scan_type : Option String)
    (stdout : String) : Json :=
  .obj [("success", .bool true),
        ("target", .str target),
        ("ports", Json.ofOptStr ports),
        ("scan_type", Json.ofOptStr scan_type),
        ("results", .obj [("xml_output", .str stdout)])]

/-- The whole of `run_nmap` (nmap.py lines 21-59). -/
def run_nmap (target : String) (ports scan_type : Option String)
    (exec : ProcessSpec → ExecOutcome) : Json :=
  basicOutcomeEnvelope (nmapSuccessEnvelope target ports scan_type)
    (exec (nmapSpec target ports scan_type))

/-! ### subfinder adapter (src/tools/subfinder.py, `run_subfinder`) -/

/-- Argument vector built by `run_subfinder` (subfinder.py lines 20-23). -/
def subfinderCmd (domain : String) (recursive : Bool) : List String :=
  let cmd := ["subfinder", "-d", domain, "-json"]
  if recursive then cmd ++ ["-recursive"] else cmd

/-- Pre-execution stage of `run_subfinder` (subfinder.py lines 19-31): the
adapter performs no input validation at all — for every domain, including
the empty string, it proceeds to invoke the external process, with no
`timeout=` argument. -/
def subfinderPlan (domain : String) (recursive : Bool) : Except Json ProcessSpec :=
  .ok ⟨subfinderCmd domain recursive, none, none⟩

/-- Success envelope of `run_subfinder` (subfinder.py lines 43-49). -/
def subfinderSuccessEnvelope (domain : String) (recursive : Bool)
    (subdomains : List Json) : Json :=
  .obj [("success", .bool true),
        ("domain", .str domain),
        ("recursive", .bool recursive),
        ("subdomains", .arr subdomains),
        ("count", .num subdomains.length)]

/-- The whole of `run_subfinder` (subfinder.py lines 19-61). -/
def run_subfinder (domain : String) (recursive : Bool)
    (jsonLoads : String → Option Json) (exec : ProcessSpec → ExecOutcome) : Json :=
  match subfinderPlan domain recursive with
  | .error env => env
  | .ok spec =>
      basicOutcomeEnvelope
        (fun stdout => subfinderSuccessEnvelope domain recursive (parseJsonLines jsonLoads stdout))
        (exec spec)

/-! ### hashcat adapter (src/tools/hashcat.py, `run_hashcat`) -/

/-- Alias table of `run_hashcat` (hashcat.py lines 23-30). -/
def hashModeMap : List (String × String) :=
  [("md5", "0"), ("sha1", "100"), ("sha256", "1400"),
   ("sha512", "1700"), ("ntlm", "1000"), ("bcrypt", "3200")]

/-- Hash-type normalization of `run_hashcat` (hashcat.py line 32):
`hash_mode_map.get(hash_type.lower(), hash_type)` — the lookup key is
lower-cased, the fallback keeps the original string unchanged. -/
def hashMode (hash_type : String) : String :=
  (List.lookup (pyLower hash_type) hashModeMap).getD hash_type

/-- Argument vector built by `run_hashcat` (hashcat.py line 35), after the
mode normalization. -/
def hashcatCmd (hash_file wordlist hash_type : String) : List String :=
  ["hashcat", "-m", hashMode hash_type, "--potfile-disable",
   "--outfile-format=2", hash_file, wordlist]

/-- Success envelope of `run_hashcat` (hashcat.py lines 46-55): echoes both
the original `hash_type` and the derived `mode`; `cracked_hashes` is the
documented empty placeholder. -/
def hashcatSuccessEnvelope (hash_file hash_type : String) (stdout : String) : Json :=
  .obj [("success", .bool true),
        ("hash_file", .str hash_file),
        ("hash_type", .str hash_type),
        ("mode", .str (hashMode hash_type)),
        ("results", .obj [("output", .str stdout), ("cracked_hashes", .arr [])])]

/-- The whole of `run_hashcat` (hashcat.py lines 21-67): no `timeout=`
argument is passed to `subprocess.run`. -/
def run_hashcat (hash_file wordlist hash_type : String)
    (exec : ProcessSpec → ExecOutcome) : Json :=
  basicOutcomeEnvelope (hashcatSuccessEnvelope hash_file hash_type)
    (exec ⟨hashcatCmd hash_file wordlist hash_type, none, none⟩)

/-! ### sqlmap adapter (src/tools/sqlmap.py, `run_sqlmap`) -/

/-- Argument vector built by `run_sqlmap` (sqlmap.py lines 22-27).  Python
truthiness: `None` and `0` both skip the optional flag. -/
def sqlmapCmd (url : String) (risk level : Option Int) : List String :=
  let cmd := ["sqlmap", "-u", url, "--batch", "--output-dir=/tmp/sqlmap"]
  let cmd :=
    match risk with
    | none => cmd
    | some r => if r = 0 then cmd else cmd ++ ["--risk", toString r]
  match level with
  | none => cmd
  | some l => if l = 0 then cmd else cmd ++ ["--level", toString l]

/-- The whole of `run_sqlmap` (sqlmap.py lines 21-58): no `timeout=`
argument is passed to `subprocess.run`. -/
def run_sqlmap (url : String) (risk level : Option Int)
    (exec : ProcessSpec → ExecOutcome) : Json :=
  basicOutcomeEnvelope
    (fun stdout =>
      .obj [("success", .bool true),
            ("url", .str url),
            ("risk", (risk.map Json.num).getD .null),
            ("level", (level.map Json.num).getD .null),
            ("results", .obj [("output", .str stdout)])])
    (exec ⟨sqlmapCmd url risk level, none, none⟩)

/-! ### xsstrike adapter (src/tools/xsstrike.py, `run_xsstrike`) -/

/-- Argument vector built by `run_xsstrike` (xsstrike.py lines 21-23). -/
def xsstrikeCmd (url : String) (crawl : Bool) : List String :=
  let cmd := ["xsstrike", "-u", url]
  if crawl then cmd ++ ["--crawl"] else cmd

/-- The whole of `run_xsstrike` (xsstrike.py lines 19-53): no `timeout=`
argument is passed to `subprocess.run`. -/
def run_xsstrike (url : String) (crawl : Bool)
    (exec : ProcessSpec → ExecOutcome) : Json :=
  basicOutcomeEnvelope
    (fun stdout =>
      .obj [("success", .bool true),
            ("url", .str url),
            ("crawl", .bool crawl),
            ("results", .obj [("output", .str stdout)])])
    (exec ⟨xsstrikeCmd url crawl, none, none⟩)

/-- A decoded envelope is well-formed when it is a JSON object whose
`success` field is a boolean. -/
def wellFormedEnvelope (j : Json) : Bool :=
  match j.getField "success" with
  | some (.bool _) => true
  | _ => false

/-! ### Helper lemmas -/

/-- Unfolding of `run_httpx` on a one-element target list: the plan picks
the inline `-u` form. -/
theorem run_httpx_single_eq (t : String) (sc : Option (List Int))
    (jsonLoads : String → Option Json) (exec : ProcessSpec → ExecOutcome) :
    run_httpx [t] sc jsonLoads exec =
      httpxOutcomeEnvelope [t] jsonLoads
        ⟨httpxBaseCmd sc ++ ["-u", t], none, some (httpxTimeoutSeconds 1)⟩
        (exec ⟨httpxBaseCmd sc ++ ["-u", t], none, some (httpxTimeoutSeconds 1)⟩) := rfl

/-- Unfolding of `run_httpx` on a target list of two or more: the plan picks
the stdin `-l -` form. -/
theorem run_httpx_multi_eq (t1 t2 : String) (rest : List String) (sc : Option (List Int))
    (jsonLoads : String → Option Json) (exec : ProcessSpec → ExecOutcome) :
    run_httpx (t1 :: t2 :: rest) sc jsonLoads exec =
      httpxOutcomeEnvelope (t1 :: t2 :: rest) jsonLoads
        ⟨httpxBaseCmd sc ++ ["-l", "-"], some (joinWith "\n" (t1 :: t2 :: rest)),
         some (httpxTimeoutSeconds (t1 :: t2 :: rest).length)⟩
        (exec ⟨httpxBaseCmd sc ++ ["-l", "-"], some (joinWith "\n" (t1 :: t2 :: rest)),
               some (httpxTimeoutSeconds (t1 :: t2 :: rest).length)⟩) := rfl

/-- Every branch of the shared basic outcome handler yields a well-formed
envelope, provided the success envelope is well-formed. -/
theorem wellFormedEnvelope_basicOutcome (successEnv : String → Json)
    (h : ∀ s, wellFormedEnvelope (successEnv s) = true) :
    ∀ o, wellFormedEnvelope (basicOutcomeEnvelope successEnv o) = true := by
  intro o
  cases o <;> first | exact h _ | rfl

/-- Every branch of the httpx `CalledProcessError` classifier yields a
well-formed envelope. -/
theorem wellFormedEnvelope_httpxClassify (e_stderr e_stdout : Option String) (msg : String) :
    wellFormedEnvelope (httpxClassifyCalledProcessError e_stderr e_stdout msg) = true := by
  simp only [httpxClassifyCalledProcessError]
  split
  · rfl
  · split <;> rfl

/-- Every branch of the httpx outcome handler yields a well-formed envelope. -/
theorem wellFormedEnvelope_httpxOutcome (targets : List String)
    (jsonLoads : String → Option Json) (spec : ProcessSpec) :
    ∀ o, wellFormedEnvelope (httpxOutcomeEnvelope targets jsonLoads spec o) = true := by
  intro o
  cases o <;> first | rfl | exact wellFormedEnvelope_httpxClassify _ _ _

/-- Every successfully planned httpx invocation carries the scaled time
bound for its target count. -/
theorem httpxPlan_ok_timeout (targets : List String) (sc : Option (List Int))
    (spec : ProcessSpec) (hplan : httpxPlan targets sc = .ok spec) :
    spec.timeout = some (httpxTimeoutSeconds targets.length) := by
  rcases targets with _ | ⟨t, _ | ⟨t2, rest⟩⟩
  · rw [show httpxPlan [] sc = Except.error httpxNoTargetsEnvelope from rfl] at hplan
    exact Except.noConfusion hplan
  · rw [show httpxPlan [t] sc =
        Except.ok (⟨httpxBaseCmd sc ++ ["-u", t], none,
          some (httpxTimeoutSeconds 1)⟩ : ProcessSpec) from rfl] at hplan
    cases Except.ok.inj hplan
    rfl
  · rw [show httpxPlan (t :: t2 :: rest) sc =
        Except.ok (⟨httpxBaseCmd sc ++ ["-l", "-"],
          some (joinWith "\n" (t :: t2 :: rest)),
          some (httpxTimeoutSeconds (t :: t2 :: rest).length)⟩ : ProcessSpec) from rfl] at hplan
    cases Except.ok.inj hplan
    rfl

/-! ### Claim theorems -/

/-- C1 (counterexample): the claim says every adapter operation's external
process invocation is time-bounded, but the network-scanner adapter calls
`subprocess.run` with no `timeout=` argument at all — at the concrete input
target `10.0.0.1` with default parameters, its process spec carries no time
bound, so no `Timeout` envelope can ever be produced for it. -/
theorem nmap_invocation_has_no_time_bound :
    (nmapSpec "10.0.0.1" none (some "sV")).timeout = none := rfl

/-- C1 (amended): for the HTTP-probe adapter (the one adapter that sets a
time bound), every planned invocation carries the configured bound
`httpxTimeoutSeconds`, and whenever the external process exceeds it the
adapter returns a `success=false` envelope that reports the configured bound
(`timeout_seconds`) and the attempted target list, rather than raising. -/
theorem httpx_time_bound_and_timeout_envelope :
    ∀ (targets : List String) (sc : Option (List Int)) (spec : ProcessSpec),
      httpxPlan targets sc = .ok spec →
      spec.timeout = some (httpxTimeoutSeconds targets.length) ∧
      ∀ (jsonLoads : String → Option Json) (exec : ProcessSpec → ExecOutcome) (msg : String),
        exec spec = .timeoutExpired msg →
        (run_httpx targets sc jsonLoads exec).getField "success" = some (.bool false) ∧
        (run_httpx targets sc jsonLoads exec).getField "timeout_seconds"
          = some (.num (httpxTimeoutSeconds targets.length)) ∧
        (run_httpx targets sc jsonLoads exec).getField "targets"
          = some (.arr (targets.map .str)) := by
  intro targets sc spec hplan
  rcases targets with _ | ⟨t, _ | ⟨t2, rest⟩⟩
  · rw [show httpxPlan [] sc = Except.error httpxNoTargetsEnvelope from rfl] at hplan
    exact Except.noConfusion hplan
  · rw [show httpxPlan [t] sc =
        Except.ok (⟨httpxBaseCmd sc ++ ["-u", t], none,
          some (httpxTimeoutSeconds 1)⟩ : ProcessSpec) from rfl] at hplan
    cases Except.ok.inj hplan
    refine ⟨rfl, ?_⟩
    intro jsonLoads exec msg hexec
    rw [run_httpx_single_eq, hexec]
    exact ⟨rfl, rfl, rfl⟩
  · rw [show httpxPlan (t :: t2 :: rest) sc =
        Except.ok (⟨httpxBaseCmd sc ++ ["-l", "-"],
          some (joinWith "\n" (t :: t2 :: rest)),
          some (httpxTimeoutSeconds (t :: t2 :: rest).length)⟩ : ProcessSpec) from rfl] at hplan
    cases Except.ok.inj hplan
    refine ⟨rfl, ?_⟩
    intro jsonLoads exec msg hexec
    rw [run_httpx_multi_eq, hexec]
    exact ⟨rfl, rfl, rfl⟩

/-- C1 (witness): the amended theorem applied to one concrete target with a
timed-out external process: the envelope reports the 35-second bound. -/
theorem httpx_time_bound_and_timeout_envelope_witness :
    (run_httpx ["https://example.com"] none (fun _ => none)
        (fun _ => .timeoutExpired "timed out")).getField "timeout_seconds"
      = some (.num 35) :=
  ((httpx_time_bound_and_timeout_envelope ["https://example.com"] none
      ⟨httpxBaseCmd none ++ ["-u", "https://example.com"], none,
       some (httpxTimeoutSeconds 1)⟩ rfl).2
    (fun _ => none) (fun _ => .timeoutExpired "timed out") "timed out" rfl).2.1

/-- C3 (counterexample): the claim asserts the HTTP-probe bound is 20
seconds for one target, but `max(20, 15*1 + 20)` is 35, not 20. -/
theorem httpx_bound_for_one_target_is_35_not_20 :
    httpxTimeoutSeconds 1 = 35 ∧ httpxTimeoutSeconds 1 ≠ 20 := by decide

/-- C3 (amended): the HTTP-probe execution bound is
`max(20, 15 * target_count + 20)` seconds — 35 for 1 target, 65 for 3
targets, 170 for 10 targets — and every planned invocation carries exactly
this bound. -/
theorem httpx_bound_formula :
    (∀ n : Nat, httpxTimeoutSeconds n = max 20 (15 * n + 20)) ∧
    httpxTimeoutSeconds 1 = 35 ∧ httpxTimeoutSeconds 3 = 65 ∧
    httpxTimeoutSeconds 10 = 170 ∧
    ∀ (targets : List String) (sc : Option (List Int)) (spec : ProcessSpec),
      httpxPlan targets sc = .ok spec →
      spec.timeout = some (httpxTimeoutSeconds targets.length) := by
  refine ⟨fun n => rfl, by decide, by decide, by decide, ?_⟩
  intro targets sc spec hplan
  exact httpxPlan_ok_timeout targets sc spec hplan

/-- C3 (witness): the bound-carrying conjunct applied to one concrete
target list. -/
theorem httpx_bound_formula_witness :
    (⟨httpxBaseCmd none ++ ["-u", "https://example.com"], none,
      some (httpxTimeoutSeconds 1)⟩ : ProcessSpec).timeout
      = some (httpxTimeoutSeconds ["https://example.com"].length) :=
  httpx_bound_formula.2.2.2.2 ["https://example.com"] none
    ⟨httpxBaseCmd none ++ ["-u", "https://example.com"], none,
     some (httpxTimeoutSeconds 1)⟩ rfl

/-- C4 (counterexample): the claim says every operation rejects missing
required parameters before attempting execution, but the subdomain
enumerator performs no input validation at all: at the concrete input of an
empty domain it still plans an external process invocation (with the empty
string spliced into the argument vector) instead of returning an
InvalidInput envelope. -/
theorem subfinder_empty_domain_still_executes :
    subfinderPlan "" false =
      .ok ⟨["subfinder", "-d", "", "-json"], none, none⟩ := rfl

/-- C4 (amended): the HTTP-probe adapter rejects an empty target list
before any external process is attempted, returning a well-formed
`success=false` envelope whose error message classifies the fault as
missing input; the subdomain enumerator (and the other adapters) perform no
such check.  The rejection happens at the planning stage, so the result is
independent of the external process oracle. -/
theorem httpx_missing_targets_rejected_before_execution :
    ∀ (sc : Option (List Int)) (jsonLoads : String → Option Json)
      (exec : ProcessSpec → ExecOutcome),
      httpxPlan [] sc = .error httpxNoTargetsEnvelope ∧
      run_httpx [] sc jsonLoads exec = httpxNoTargetsEnvelope ∧
      httpxNoTargetsEnvelope.getField "success" = some (.bool false) ∧
      httpxNoTargetsEnvelope.getField "error"
        = some (.str "No targets provided. Please provide at least one URL or IP address.") :=
  fun _ _ _ => ⟨rfl, rfl, rfl, rfl⟩

/-- C5: the HTTP-probe adapter's command construction — exactly one target
yields the inline `-u <target>` form with no stdin payload; two or more
targets yield the `-l -` read-from-stdin form with the targets
newline-joined in input order as the stdin payload. -/
theorem httpx_single_vs_multi_target_construction :
    ∀ (sc : Option (List Int)) (t t1 t2 : String) (rest : List String),
      httpxPlan [t] sc =
        .ok ⟨httpxBaseCmd sc ++ ["-u", t], none, some (httpxTimeoutSeconds 1)⟩ ∧
      httpxPlan (t1 :: t2 :: rest) sc =
        .ok ⟨httpxBaseCmd sc ++ ["-l", "-"], some (joinWith "\n" (t1 :: t2 :: rest)),
             some (httpxTimeoutSeconds (t1 :: t2 :: rest).length)⟩ :=
  fun _ _ _ _ _ => ⟨rfl, rfl⟩

/-- C6: the password-cracker hash-type normalization maps the documented
aliases to their numeric modes, passes any string whose lower-casing is not
in the alias table through unchanged (for example "1337"), and the command
is constructed from the derived mode. -/
theorem hashcat_alias_normalization :
    hashMode "md5" = "0" ∧ hashMode "ntlm" = "1000" ∧ hashMode "sha256" = "1400" ∧
    hashMode "bcrypt" = "3200" ∧ hashMode "1337" = "1337" ∧
    (∀ ht : String, List.lookup (pyLower ht) hashModeMap = none → hashMode ht = ht) ∧
    ∀ hf wl ht : String, hashcatCmd hf wl ht =
      ["hashcat", "-m", hashMode ht, "--potfile-disable", "--outfile-format=2", hf, wl] :=
  ⟨rfl, rfl, rfl, rfl, rfl,
   fun ht h => by simp only [hashMode, h, Option.getD],
   fun _ _ _ => rfl⟩

/-- C6 (witness): the pass-through conjunct applied to the concrete
unrecognized string "1337". -/
theorem hashcat_alias_normalization_witness :
    List.lookup (pyLower "1337") hashModeMap = none ∧ hashMode "1337" = "1337" :=
  ⟨by decide, hashcat_alias_normalization.2.2.2.2.2.1 "1337" (by decide)⟩

/-- C10: the hash-type alias lookup is case-insensitive (the key is
lower-cased before the table lookup), an unrecognized string is passed
through with its original casing preserved, and the success envelope echoes
both the original `hash_type` and the derived `mode`. -/
theorem hashcat_alias_case_insensitive_and_echoed :
    hashMode "MD5" = "0" ∧ hashMode "Md5" = "0" ∧ hashMode "NTLM" = "1000" ∧
    hashMode "AbC" = "AbC" ∧
    (∀ ht : String, List.lookup (pyLower ht) hashModeMap = none → hashMode ht = ht) ∧
    ∀ (hf wl ht stdout stderr : String),
      (run_hashcat hf wl ht (fun _ => .ok stdout stderr)).getField "hash_type"
        = some (.str ht) ∧
      (run_hashcat hf wl ht (fun _ => .ok stdout stderr)).getField "mode"
        = some (.str (hashMode ht)) :=
  ⟨rfl, rfl, rfl, rfl,
   fun ht h => by simp only [hashMode, h, Option.getD],
   fun _ _ _ _ _ => ⟨rfl, rfl⟩⟩

/-- C10 (witness): the pass-through conjunct applied to a concrete
mixed-case unrecognized string, which keeps its original casing. -/
theorem hashcat_alias_case_insensitive_and_echoed_witness :
    List.lookup (pyLower "XyZ9") hashModeMap = none ∧ hashMode "XyZ9" = "XyZ9" :=
  ⟨by decide, hashcat_alias_case_insensitive_and_echoed.2.2.2.2.1 "XyZ9" (by decide)⟩

/-- C2: every adapter invocation, for every input and every behaviour of
the external process (normal exit, non-zero exit, timeout, missing binary,
any other exception), returns exactly one well-formed result envelope — a
JSON object with a boolean `success` field — and never lets an error
propagate out unhandled. -/
theorem every_call_returns_one_wellformed_envelope :
    (∀ (targets : List String) (sc : Option (List Int))
       (jsonLoads : String → Option Json) (exec : ProcessSpec → ExecOutcome),
       wellFormedEnvelope (run_httpx targets sc jsonLoads exec) = true) ∧
    (∀ (domain : String) (recursive : Bool) (jsonLoads : String → Option Json)
       (exec : ProcessSpec → ExecOutcome),
       wellFormedEnvelope (run_subfinder domain recursive jsonLoads exec) = true) ∧
    (∀ (hash_file wordlist hash_type : String) (exec : ProcessSpec → ExecOutcome),
       wellFormedEnvelope (run_hashcat hash_file wordlist hash_type exec) = true) ∧
    (∀ (target : String) (ports scan_type : Option String)
       (exec : ProcessSpec → ExecOutcome),
       wellFormedEnvelope (run_nmap target ports scan_type exec) = true) ∧
    (∀ (url : String) (risk level : Option Int) (exec : ProcessSpec → ExecOutcome),
       wellFormedEnvelope (run_sqlmap url risk level exec) = true) ∧
    (∀ (url : String) (crawl : Bool) (exec : ProcessSpec → ExecOutcome),
       wellFormedEnvelope (run_xsstrike url crawl exec) = true) := by
  refine ⟨?_, ?_, ?_, ?_, ?_, ?_⟩
  · intro targets sc jsonLoads exec
    rcases targets with _ | ⟨t, _ | ⟨t2, rest⟩⟩
    · rfl
    · rw [run_httpx_single_eq]
      exact wellFormedEnvelope_httpxOutcome _ _ _ _
    · rw [run_httpx_multi_eq]
      exact wellFormedEnvelope_httpxOutcome _ _ _ _
  · intro domain recursive jsonLoads exec
    apply wellFormedEnvelope_basicOutcome
    intro s
    rfl
  · intro hash_file wordlist hash_type exec
    apply wellFormedEnvelope_basicOutcome
    intro s
    rfl
  · intro target ports scan_type exec
    apply wellFormedEnvelope_basicOutcome
    intro s
    rfl
  · intro url risk level exec
    apply wellFormedEnvelope_basicOutcome
    intro s
    rfl
  · intro url crawl exec
    apply wellFormedEnvelope_basicOutcome
    intro s
    rfl

/-- C7: for the two JSON-lines adapters, stdout consisting of a well-formed
line, a malformed line, a blank line and another well-formed line parses to
exactly the two well-formed records in their original order; malformed and
blank lines are silently dropped and the adapters still return a success
envelope carrying that record list. -/
theorem jsonlines_skip_malformed_and_blank :
    ∀ (jsonLoads : String → Option Json) (stdout l1 lm l3 : String) (r1 r3 : Json)
      (domain t stderr : String) (recursive : Bool) (sc : Option (List Int)),
      pyLines (pyStrip stdout) = [l1, lm, "", l3] →
      pyStrip l1 ≠ "" → pyStrip lm ≠ "" → pyStrip l3 ≠ "" →
      jsonLoads l1 = some r1 → jsonLoads lm = none → jsonLoads l3 = some r3 →
      parseJsonLines jsonLoads stdout = [r1, r3] ∧
      (run_subfinder domain recursive jsonLoads
          (fun _ => .ok stdout stderr)).getField "subdomains"
        = some (.arr [r1, r3]) ∧
      (run_httpx [t] sc jsonLoads (fun _ => .ok stdout stderr)).getField "results"
        = some (.arr [r1, r3]) := by
  intro jsonLoads stdout l1 lm l3 r1 r3 domain t stderr recursive sc
  intro hlines hb1 hbm hb3 h1 hm h3
  have hp : parseJsonLines jsonLoads stdout = [r1, r3] := by
    unfold parseJsonLines
    rw [hlines]
    simp only [List.filterMap_cons, List.filterMap_nil, if_neg hb1, if_neg hbm, if_neg hb3,
      h1, hm, h3]
    rfl
  refine ⟨hp, ?_, ?_⟩
  · show (subfinderSuccessEnvelope domain recursive
        (parseJsonLines jsonLoads stdout)).getField "subdomains" = some (.arr [r1, r3])
    rw [hp]
    rfl
  · rw [run_httpx_single_eq]
    show (httpxSuccessEnvelope [t] (parseJsonLines jsonLoads stdout)).getField "results"
        = some (.arr [r1, r3])
    rw [hp]
    rfl

/-- C7 (witness): the theorem applied to a concrete stdout with one
malformed line and one blank line interleaved between two parseable lines,
under a concrete line parser. -/
theorem jsonlines_skip_malformed_and_blank_witness :
    parseJsonLines
      (fun s => if s = "alpha" then some (.str "a")
                else if s = "gamma" then some (.str "c") else none)
      "alpha\nnoise\n\ngamma" = [.str "a", .str "c"] :=
  (jsonlines_skip_malformed_and_blank
      (fun s => if s = "alpha" then some (.str "a")
                else if s = "gamma" then some (.str "c") else none)
      "alpha\nnoise\n\ngamma" "alpha" "noise" "gamma" (.str "a") (.str "c")
      "example.com" "https://example.com" "" false none
      rfl (by decide) (by decide) (by decide) rfl rfl rfl).1

/-- C8 (counterexample): the claim says any captured error mentioning
"pip install" (case-insensitively) is classified as the wrong-binary
variant, but the adapter only matches the full signature
pip-install-httpx-cli: at the concrete non-zero exit whose stderr is
"please pip install requests" the envelope is the generic execution-failed
classification, not the wrong-binary one. -/
theorem httpx_pip_install_alone_not_wrong_binary :
    (run_httpx ["https://example.com"] none (fun _ => none)
        (fun _ => .calledProcessError (some "please pip install requests") (some "")
          "exit status 1")).getField "error"
      = some (.str "httpx execution failed: please pip install requests") := rfl

/-- C8 (amended): when the external process exits non-zero and the combined
captured stderr, stdout and exception text contains (case-insensitively)
"required dependencies" or the full signature pip install \x27httpx[cli]\x27
— not the bare words "pip install" — the envelope is the wrong-binary
classification naming the expected tool source (projectdiscovery httpx),
not a generic execution failure.  The theorem covers the whole signature
set of the source, which also includes "command line client could not run";
any one of the three occurring in the combined text forces the wrong-binary
envelope. -/
theorem httpx_wrong_binary_classified :
    ∀ (e_stderr e_stdout : Option String) (msg t : String) (sc : Option (List Int))
      (jsonLoads : String → Option Json),
      (containsSub (pyLower ((e_stderr.getD "") ++ (e_stdout.getD "") ++ msg))
          "command line client could not run" = true ∨
       containsSub (pyLower ((e_stderr.getD "") ++ (e_stdout.getD "") ++ msg))
          "required dependencies" = true ∨
       containsSub (pyLower ((e_stderr.getD "") ++ (e_stdout.getD "") ++ msg))
          "pip install \x27httpx[cli]\x27" = true) →
      httpxClassifyCalledProcessError e_stderr e_stdout msg
        = httpxWrongBinaryEnvelope e_stderr e_stdout ∧
      run_httpx [t] sc jsonLoads (fun _ => .calledProcessError e_stderr e_stdout msg)
        = httpxWrongBinaryEnvelope e_stderr e_stdout := by
  intro e_stderr e_stdout msg t sc jsonLoads h
  have hc : httpxClassifyCalledProcessError e_stderr e_stdout msg
      = httpxWrongBinaryEnvelope e_stderr e_stdout := by
    simp only [httpxClassifyCalledProcessError, httpxWrongBinaryPhrases]
    rcases h with h | h | h <;> simp [List.any, h]
  exact ⟨hc, by rw [run_httpx_single_eq]; exact hc⟩

/-- C8 (witness): the amended theorem applied to a concrete mixed-case
stderr containing the "required dependencies" signature. -/
theorem httpx_wrong_binary_classified_witness :
    httpxClassifyCalledProcessError (some "ERROR: Required Dependencies are missing")
        none "boom"
      = httpxWrongBinaryEnvelope (some "ERROR: Required Dependencies are missing") none :=
  (httpx_wrong_binary_classified (some "ERROR: Required Dependencies are missing") none
      "boom" "https://example.com" none (fun _ => none) (Or.inr (Or.inl (by decide)))).1

/-- C9: every successful result envelope carries `success=true`; the two
list-shaped adapters (subdomain enumerator, HTTP probe) carry a `count`
field equal to the length of the parsed result list, and the non-list-shaped
successful envelopes (network scan, SQL injection test, XSS scan, hash
crack) carry no `count` field at all. -/
theorem success_envelope_count_invariant :
    (∀ (domain stdout stderr : String) (recursive : Bool)
       (jsonLoads : String → Option Json),
       (run_subfinder domain recursive jsonLoads
           (fun _ => .ok stdout stderr)).getField "success" = some (.bool true) ∧
       (run_subfinder domain recursive jsonLoads
           (fun _ => .ok stdout stderr)).getField "count"
         = some (.num (parseJsonLines jsonLoads stdout).length)) ∧
    (∀ (t stdout stderr : String) (rest : List String) (sc : Option (List Int))
       (jsonLoads : String → Option Json),
       (run_httpx (t :: rest) sc jsonLoads
           (fun _ => .ok stdout stderr)).getField "success" = some (.bool true) ∧
       (run_httpx (t :: rest) sc jsonLoads
           (fun _ => .ok stdout stderr)).getField "count"
         = some (.num (parseJsonLines jsonLoads stdout).length)) ∧
    (∀ (target stdout stderr : String) (ports scan_type : Option String),
       (run_nmap target ports scan_type
           (fun _ => .ok stdout stderr)).getField "success" = some (.bool true) ∧
       (run_nmap target ports scan_type
           (fun _ => .ok stdout stderr)).getField "count" = none) ∧
    (∀ (url stdout stderr : String) (risk level : Option Int),
       (run_sqlmap url risk level
           (fun _ => .ok stdout stderr)).getField "success" = some (.bool true) ∧
       (run_sqlmap url risk level
           (fun _ => .ok stdout stderr)).getField "count" = none) ∧
    (∀ (url stdout stderr : String) (crawl : Bool),
       (run_xsstrike url crawl
           (fun _ => .ok stdout stderr)).getField "success" = some (.bool true) ∧
       (run_xsstrike url crawl
           (fun _ => .ok stdout stderr)).getField "count" = none) ∧
    (∀ (hash_file wordlist hash_type stdout stderr : String),
       (run_hashcat hash_file wordlist hash_type
           (fun _ => .ok stdout stderr)).getField "success" = some (.bool true) ∧
       (run_hashcat hash_file wordlist hash_type
           (fun _ => .ok stdout stderr)).getField "count" = none) := by
  refine ⟨fun _ _ _ _ _ => ⟨rfl, rfl⟩, ?_, fun _ _ _ _ _ => ⟨rfl, rfl⟩,
    fun _ _ _ _ _ => ⟨rfl, rfl⟩, fun _ _ _ _ => ⟨rfl, rfl⟩, fun _ _ _ _ _ => ⟨rfl, rfl⟩⟩
  intro t stdout stderr rest sc jsonLoads
  rcases rest with _ | ⟨t2, rest⟩
  · rw [run_httpx_single_eq]
    exact ⟨rfl, rfl⟩
  · rw [run_httpx_multi_eq]
    exact ⟨rfl, rfl⟩

end SecOps
